import Mathlib

/-!
Verification of `foliumMap.py` (class `FoliumMap`), a wrapper around the
folium mapping library.  The wrapper's state is embedded shallowly: the
underlying `folium.Map` is modelled by its observable components — a center
location, a mutable options mapping (string keys), and the list of overlays
(markers, circles, GeoJSON regions) attached so far.  Python's dynamic values
are modelled by `PyVal`; machine floats are modelled by `Rat` (only equality
and comparison of small literals matter here).  A method that can raise is
modelled as a function returning `Except PyErr Unit × MapState`: the first
component records normal return or the raised exception, the second the state
of the wrapper object after the call (Python exceptions do not roll back
mutations already performed).
-/

/-- A Python runtime value, as far as this module inspects values:
`type(x)` distinguishes `int`, `float`, `bool` and `str`, and in Python
`type(True) == int` is `False` even though `bool` subclasses `int`. -/
inductive PyVal where
  | int (n : Int)
  | float (q : Rat)
  | bool (b : Bool)
  | str (s : String)
deriving DecidableEq, Repr

/-- `type(v) in [int, float]`: the exact-type numeric test used by
`set_center` (line 28 of the source).  `bool` values fail this test because
`type(True)` is `bool`, not `int`. -/
def PyVal.isNumeric : PyVal → Bool
  | .int _ => true
  | .float _ => true
  | _ => false

/-- `type(v) == int`: the exact-type integer test used by `set_zoom_scale`
(line 42 of the source).  Again `bool` values fail it. -/
def PyVal.isInt : PyVal → Bool
  | .int _ => true
  | _ => false

/-- Exceptions raised by the module.  `exception msg` is Python's bare
`Exception(msg)`; the others are the built-in exception classes that the
standard library or folium raise on the module's behalf. -/
inductive PyErr where
  | exception (msg : String)
  | keyError
  | valueError
  | fileNotFoundError
  | jsonDecodeError
deriving DecidableEq, Repr

/-- The fixed style dictionary passed by `make_bound` to `folium.GeoJson`:
`\x7b"fillColor": "yellow", "color": "black", "weight": 2,
"fillOpacity": 0.15\x7d`. -/
structure GeoStyle where
  fillColor : String
  color : String
  weight : Int
  fillOpacity : Rat
deriving DecidableEq, Repr

/-- An overlay attached to the map: a marker with popup HTML, a circle with
its styling arguments, or a styled GeoJSON region.  GeoJSON documents are
opaque to the wrapper (loaded verbatim), so they are an abstract `String`
here. -/
inductive Overlay where
  | marker (location : Rat × Rat) (popup : String)
  | circle (location : Rat × Rat) (radius : PyVal) (weight : PyVal)
      (color : PyVal) (fill : PyVal) (fillColor : PyVal)
      (fillOpacity : PyVal) (popup : String)
  | geoJson (doc : String) (name : String) (style : GeoStyle)
      (popupFields : List String)
deriving DecidableEq, Repr

/-- The observable state of the wrapped `folium.Map`: center `location`,
the `options` dict (string keys; the constructor puts `"zoom"` in it), and
the overlays added so far (a fresh map has none). -/
structure MapState where
  location : PyVal × PyVal
  options : List (String × PyVal)
  overlays : List Overlay
deriving DecidableEq, Repr

/-- Look a key up in an options dict (first binding wins, as in a Python
dict, whose keys are unique). -/
def lookupOpt (k : String) : List (String × PyVal) → Option PyVal
  | [] => none
  | (k2, v) :: rest => if k2 = k then some v else lookupOpt k rest

/-- `d[k] = v` on an options dict: replace the binding if the key is
present, append it otherwise. -/
def updateOpt (k : String) (v : PyVal) : List (String × PyVal) →
    List (String × PyVal)
  | [] => [(k, v)]
  | (k2, w) :: rest =>
      if k2 = k then (k2, v) :: rest else (k2, w) :: updateOpt k v rest

/-- `FoliumMap.__init__(center, zoom_scale=12)`: builds
`folium.Map(location=center, zoom_start=zoom_scale)`.  The constructor
records the center and puts the zoom into the options dict; a fresh map has
no overlays. -/
def FoliumMap.mkMap (center : PyVal × PyVal) (zoomScale : PyVal) : MapState :=
  { location := center
    options := [("zoom", zoomScale)]
    overlays := [] }

/-- `FoliumMap.set_center(lat, lng)` (source lines 18–31): if both
arguments pass the exact-type numeric test the center is overwritten,
otherwise `Exception("TypeError: latitude and longitude must be numeric")`
is raised and nothing is mutated. -/
def set_center (m : MapState) (lat lng : PyVal) :
    Except PyErr Unit × MapState :=
  if lat.isNumeric && lng.isNumeric then
    (.ok (), { m with location := (lat, lng) })
  else
    (.error (.exception "TypeError: latitude and longitude must be numeric"),
      m)

/-- `FoliumMap.set_zoom_scale(zoom)` (source lines 33–50): if the argument
is exactly an `int` it is clamped below to `1` then above to `18` and stored
at key `"zoom"` of the options dict; otherwise
`Exception("TypeError: latitude and longitude must be integer")` (message
sic) is raised and nothing is mutated. -/
def set_zoom_scale (m : MapState) (zoom : PyVal) :
    Except PyErr Unit × MapState :=
  match zoom with
  | .int z =>
      let z1 : Int := if z < 1 then 1 else z
      let z2 : Int := if z1 > 18 then 18 else z1
      (.ok (), { m with options := updateOpt "zoom" (.int z2) m.options })
  | _ =>
      (.error (.exception "TypeError: latitude and longitude must be integer"),
        m)

/-- The snapshot returned by `FoliumMap.get_map_info()` (source lines
52–61): the current center and the current options dict. -/
structure MapInfo where
  center : PyVal × PyVal
  options : List (String × PyVal)
deriving DecidableEq, Repr

/-- `FoliumMap.get_map_info()`: returns `\x7b"center": location,
"options": options\x7d`; no side effect. -/
def get_map_info (m : MapState) : MapInfo :=
  { center := m.location, options := m.options }

/-- `FoliumMap.clear()` (source lines 120–125): reads the current center
and `options["zoom"]` (a `KeyError` would be raised were the key absent;
the constructor always installs it) and rebuilds the map at that center and
zoom, discarding every overlay. -/
def clear (m : MapState) : Except PyErr MapState :=
  match lookupOpt "zoom" m.options with
  | some zoom => .ok (FoliumMap.mkMap m.location zoom)
  | none => .error .keyError

/-- One row of the location table: a name and a (latitude, longitude) pair
(spec §3: "a row with a name string and a (latitude, longitude) pair"). -/
structure LocRow where
  name : String
  lat : Rat
  lng : Rat
deriving DecidableEq, Repr

/-- The pandas location `DataFrame` as the module uses it: its rows paired
with their integer index labels.  `df.shape[0]` is the number of rows; the
labels are `0, 1, …, n-1` for a freshly constructed frame but arbitrary in
general (e.g. after filtering without `reset_index`). -/
def LocFrame := List (Int × LocRow)

instance : DecidableEq LocFrame := by
  unfold LocFrame
  infer_instance

/-- The label-based lookup `df.loc[i, ["name", "lat", "lng"]]` followed by
the tuple unpacking `name, lat, lng = …` (source lines 71 and 107).  A
missing label raises `KeyError`.  A duplicated label makes `.loc` return a
multi-row frame; unpacking that yields the three column-name strings, and
passing them on as the marker/circle location makes folium's coordinate
validation raise `ValueError` in the same loop iteration, so a duplicated
label is modelled as raising `ValueError` at the lookup. -/
def locRowAt (df : LocFrame) (i : Int) : Except PyErr LocRow :=
  match df.filter (fun p => p.1 = i) with
  | [p] => .ok p.2
  | [] => .error .keyError
  | _ => .error .valueError

/-- The popup HTML built for a row name at source lines 72 and 108:
`<div style="width:150px">` then the name then `</div>`. -/
def popupHtml (name : String) : String :=
  "<div style=\"width:150px\">" ++ name ++ "</div>"

/-- `overlay.add_to(self.folium_map)`: appends the overlay to the map's
scene graph. -/
def addOverlay (m : MapState) (o : Overlay) : MapState :=
  { m with overlays := m.overlays ++ [o] }

/-- `range(n)` as a list of integer index values, as the loops at source
lines 70 and 106 produce it. -/
def intRange (n : Nat) : List Int :=
  (List.range n).map Nat.cast

/-- The loop of `make_marker` over the index values it will try, in order:
each iteration looks its label up and adds one marker; a raised exception
aborts the loop, keeping the markers added so far. -/
def makeMarkerLoop (m : MapState) (df : LocFrame) :
    List Int → Except PyErr Unit × MapState
  | [] => (.ok (), m)
  | i :: rest =>
      match locRowAt df i with
      | .ok row =>
          makeMarkerLoop
            (addOverlay m (.marker (row.lat, row.lng) (popupHtml row.name)))
            df rest
      | .error e => (.error e, m)

/-- `FoliumMap.make_marker(loc_df)` (source lines 63–74): for
`i in range(loc_df.shape[0])`, looks row `i` up by label and adds
`folium.Marker([lat, lng], popup=popup)` to the map. -/
def make_marker (m : MapState) (df : LocFrame) :
    Except PyErr Unit × MapState :=
  makeMarkerLoop m df (intRange df.length)

/-- The keyword arguments accepted by `make_circle` (source lines 99–104):
each is taken from `kwargs` when supplied and defaulted otherwise. -/
structure CircleKwargs where
  radius : Option PyVal := none
  weight : Option PyVal := none
  color : Option PyVal := none
  fill : Option PyVal := none
  fill_opacity : Option PyVal := none
  fill_color : Option PyVal := none
deriving DecidableEq, Repr

/-- The loop of `make_circle`: each iteration looks its label up and adds
one `folium.Circle` with the six resolved styling values. -/
def makeCircleLoop (m : MapState) (df : LocFrame)
    (radius weight color fill fillOpacity fillColor : PyVal) :
    List Int → Except PyErr Unit × MapState
  | [] => (.ok (), m)
  | i :: rest =>
      match locRowAt df i with
      | .ok row =>
          makeCircleLoop
            (addOverlay m (.circle (row.lat, row.lng) radius weight color
              fill fillColor fillOpacity (popupHtml row.name)))
            df radius weight color fill fillOpacity fillColor rest
      | .error e => (.error e, m)

/-- `FoliumMap.make_circle(loc_df, **kwargs)` (source lines 86–118):
resolves each styling keyword to the supplied value or its default
(`radius` 5000, `weight` 3, `color` "brown", `fill` True, `fill_opacity`
0.3, `fill_color` "coral") and then, for `i in range(loc_df.shape[0])`,
looks row `i` up by label and draws one circle there. -/
def make_circle (m : MapState) (df : LocFrame) (kwargs : CircleKwargs) :
    Except PyErr Unit × MapState :=
  let radius := kwargs.radius.getD (.int 5000)
  let weight := kwargs.weight.getD (.int 3)
  let color := kwargs.color.getD (.str "brown")
  let fill := kwargs.fill.getD (.bool true)
  let fill_opacity := kwargs.fill_opacity.getD (.float (3 / 10 : Rat))
  let fill_color := kwargs.fill_color.getD (.str "coral")
  makeCircleLoop m df radius weight color fill fill_opacity fill_color
    (intRange df.length)

/-- What reading and JSON-parsing the file at a path can yield.  The file
system is part of the environment; a path either does not resolve to a file
(`open` raises `FileNotFoundError`), resolves to a file that is not
well-formed JSON (`json.load` raises `JSONDecodeError`), or resolves to a
file whose parsed document is the given one. -/
inductive FileRead where
  | notFound
  | malformed
  | geojson (doc : String)
deriving DecidableEq, Repr

/-- An environment assigning to every path the outcome of
`json.load(open(path, encoding="utf-8"))`. -/
def FileSys := String → FileRead

/-- `FoliumMap.make_bound(geo_path)` (source lines 76–84): loads the
GeoJSON file at the path (propagating the not-found or parse exception) and
attaches it as one `folium.GeoJson` overlay named `"seoul"` with the fixed
style `\x7bfillColor: yellow, color: black, weight: 2, fillOpacity: 0.15\x7d`
and a popup over the `"name"` field. -/
def make_bound (fs : FileSys) (m : MapState) (geoPath : String) :
    Except PyErr Unit × MapState :=
  match fs geoPath with
  | .notFound => (.error .fileNotFoundError, m)
  | .malformed => (.error .jsonDecodeError, m)
  | .geojson doc =>
      (.ok (), addOverlay m (.geoJson doc "seoul"
        { fillColor := "yellow", color := "black", weight := 2
          fillOpacity := (15 / 100 : Rat) }
        ["name"]))

/-! ### Concrete data mirroring the demo entry point (source lines 142–161) -/

/-- The demo map: `FoliumMap((37.55, 126.98))` with the default zoom 12. -/
def demoMap : MapState :=
  FoliumMap.mkMap (.float (3755 / 100 : Rat), .float (12698 / 100 : Rat))
    (.int 12)

/-- The demo location table (three Seoul stations), with the default index
labels `0, 1, 2` that `pd.DataFrame` assigns. -/
def demoDf : LocFrame :=
  [ (0, { name := "강남역", lat := (374979126 / 10000000 : Rat)
          lng := (1270276946 / 10000000 : Rat) })
  , (1, { name := "서울역", lat := (375546 / 10000 : Rat)
          lng := (1269708 / 10000 : Rat) })
  , (2, { name := "구로디지털단지", lat := (374853 / 10000 : Rat)
          lng := (1269015 / 10000 : Rat) }) ]

/-- A two-row table whose index labels are `[1, 0]`: a permutation of the
default range but not equal to it. -/
def dfPermuted : LocFrame :=
  [ (1, { name := "b", lat := (2 : Rat), lng := (3 : Rat) })
  , (0, { name := "a", lat := (4 : Rat), lng := (5 : Rat) }) ]

/-! ### Helper lemmas -/

/-- `true` when the call raised, `false` when it returned normally. -/
def raisesB (r : Except PyErr Unit × MapState) : Bool :=
  match r.1 with
  | .error _ => true
  | .ok _ => false

/-- `true` when label `i` selects exactly one row of `df`. -/
def rowFound (df : LocFrame) (i : Int) : Bool :=
  match locRowAt df i with
  | .ok _ => true
  | .error _ => false

theorem lookupOpt_updateOpt_self (k : String) (v : PyVal) :
    ∀ opts, lookupOpt k (updateOpt k v opts) = some v := by
  intro opts
  induction opts with
  | nil => simp [updateOpt, lookupOpt]
  | cons p rest ih =>
      by_cases h : p.1 = k
      · simp [updateOpt, lookupOpt, h]
      · simpa [updateOpt, lookupOpt, h] using ih

theorem rowFound_iff (df : LocFrame) (i : Int) :
    rowFound df i = true ↔ (df.filter (fun p => p.1 = i)).length = 1 := by
  unfold rowFound locRowAt
  rcases h : df.filter (fun p => p.1 = i) with _ | ⟨p, _ | ⟨q, tl⟩⟩ <;>
    simp [h]

/-- Collect the rows that the loops of `make_marker`/`make_circle` would
visit for the given labels, or the first exception raised. -/
def rowsAt (df : LocFrame) : List Int → Except PyErr (List LocRow)
  | [] => .ok []
  | i :: rest =>
      match locRowAt df i with
      | .ok r => (rowsAt df rest).map (fun rs => r :: rs)
      | .error e => .error e

theorem rowsAt_congr (df1 df2 : LocFrame) :
    ∀ l, (∀ i ∈ l, locRowAt df1 i = locRowAt df2 i) →
      rowsAt df1 l = rowsAt df2 l := by
  intro l
  induction l with
  | nil => intro _; rfl
  | cons i rest ih =>
      intro h
      have hi := h i (by simp)
      have hrest := ih (fun j hj => h j (by simp [hj]))
      simp [rowsAt, hi, hrest]

/-- The marker overlay built from one location row (source lines 71–74). -/
def markerOf (r : LocRow) : Overlay :=
  .marker (r.lat, r.lng) (popupHtml r.name)

theorem makeMarkerLoop_of_rowsAt_ok (df : LocFrame) :
    ∀ (todo : List Int) (m : MapState) (rows : List LocRow),
      rowsAt df todo = .ok rows →
      makeMarkerLoop m df todo =
        (.ok (), { m with overlays := m.overlays ++ rows.map markerOf }) := by
  intro todo
  induction todo with
  | nil =>
      intro m rows h
      simp [rowsAt] at h
      subst h
      simp [makeMarkerLoop]
  | cons i rest ih =>
      intro m rows h
      unfold rowsAt at h
      cases hi : locRowAt df i with
      | error e => rw [hi] at h; exact absurd h (by simp)
      | ok r =>
          rw [hi] at h
          cases hrest : rowsAt df rest with
          | error e => rw [hrest] at h; exact absurd h (by simp [Except.map])
          | ok rs =>
              rw [hrest] at h
              simp [Except.map] at h
              subst h
              simp [makeMarkerLoop, hi, ih _ _ hrest, addOverlay, markerOf]

theorem makeMarkerLoop_ok_iff (df : LocFrame) :
    ∀ (todo : List Int) (m : MapState),
      (makeMarkerLoop m df todo).1 = .ok () ↔
        ∀ i ∈ todo, rowFound df i = true := by
  intro todo
  induction todo with
  | nil => intro m; simp [makeMarkerLoop]
  | cons i rest ih =>
      intro m
      cases hi : locRowAt df i with
      | ok r => simp [makeMarkerLoop, hi, ih, rowFound]
      | error e => simp [makeMarkerLoop, hi, rowFound]

/-- The circle overlay built from one location row and the six resolved
styling values (source lines 110–118). -/
def circleOf (radius weight color fill fillColor fillOpacity : PyVal)
    (r : LocRow) : Overlay :=
  .circle (r.lat, r.lng) radius weight color fill fillColor fillOpacity
    (popupHtml r.name)

theorem makeCircleLoop_of_rowsAt_ok (df : LocFrame)
    (radius weight color fill fillOpacity fillColor : PyVal) :
    ∀ (todo : List Int) (m : MapState) (rows : List LocRow),
      rowsAt df todo = .ok rows →
      makeCircleLoop m df radius weight color fill fillOpacity fillColor
          todo =
        (.ok (), { m with overlays := m.overlays ++ List.map (circleOf radius weight color fill fillColor fillOpacity) rows }) := by
  intro todo
  induction todo with
  | nil =>
      intro m rows h
      simp [rowsAt] at h
      subst h
      simp [makeCircleLoop]
  | cons i rest ih =>
      intro m rows h
      unfold rowsAt at h
      cases hi : locRowAt df i with
      | error e => rw [hi] at h; exact absurd h (by simp)
      | ok r =>
          rw [hi] at h
          cases hrest : rowsAt df rest with
          | error e => rw [hrest] at h; exact absurd h (by simp [Except.map])
          | ok rs =>
              rw [hrest] at h
              simp [Except.map] at h
              subst h
              simp [makeCircleLoop, hi, ih _ _ hrest, addOverlay, circleOf]

theorem makeCircleLoop_ok_iff (df : LocFrame)
    (radius weight color fill fillOpacity fillColor : PyVal) :
    ∀ (todo : List Int) (m : MapState),
      (makeCircleLoop m df radius weight color fill fillOpacity fillColor
          todo).1 = .ok () ↔
        ∀ i ∈ todo, rowFound df i = true := by
  intro todo
  induction todo with
  | nil => intro m; simp [makeCircleLoop]
  | cons i rest ih =>
      intro m
      cases hi : locRowAt df i with
      | ok r => simp [makeCircleLoop, hi, ih, rowFound]
      | error e => simp [makeCircleLoop, hi, rowFound]

theorem locRowAt_cons_ne (a : Int) (r : LocRow) (tl : List (Int × LocRow))
    (i : Int) (h : ¬a = i) :
    locRowAt ((a, r) :: tl) i = locRowAt tl i := by
  simp [locRowAt, List.filter_cons, h]

/-- On a frame whose labels are exactly `off, off+1, …, off+n-1` in order,
visiting those labels collects exactly the rows in order. -/
theorem rowsAt_default :
    ∀ (df : LocFrame) (off : ℕ),
      df.map Prod.fst = (List.range' off df.length).map Nat.cast →
      rowsAt df ((List.range' off df.length).map Nat.cast) =
        .ok (df.map Prod.snd) := by
  intro df
  induction df with
  | nil => intro off _; simp [rowsAt]
  | cons p tl ih =>
      intro off h
      obtain ⟨a, r⟩ := p
      simp only [List.length_cons, List.range'_succ, List.map_cons,
        List.cons.injEq] at h ⊢
      obtain ⟨ha, htl⟩ := h
      subst ha
      have hmem : ∀ q ∈ tl, ¬q.1 = (off : Int) := by
        intro q hq he
        have h1 : q.1 ∈ List.map Prod.fst tl := List.mem_map_of_mem _ hq
        rw [htl] at h1
        obtain ⟨k, hk, hk2⟩ := List.mem_map.mp h1
        have h2 := (List.mem_range'_1.mp hk).1
        rw [he] at hk2
        omega
      have hhead : locRowAt (((off : Int), r) :: tl) (off : Int) =
          .ok r := by
        have hfil : tl.filter (fun q => q.1 = (off : Int)) = [] :=
          List.filter_eq_nil_iff.mpr (by
            intro q hq
            simpa using hmem q hq)
        simp [locRowAt, List.filter_cons, hfil]
      have hcong :
          rowsAt (((off : Int), r) :: tl)
              ((List.range' (off + 1) tl.length).map Nat.cast) =
            rowsAt tl
              ((List.range' (off + 1) tl.length).map Nat.cast) := by
        apply rowsAt_congr
        intro i hi
        obtain ⟨k, hk, hk2⟩ := List.mem_map.mp hi
        have h2 := (List.mem_range'_1.mp hk).1
        apply locRowAt_cons_ne
        intro he
        rw [← hk2] at he
        omega
      have hih := ih (off + 1) htl
      simp [rowsAt, hhead, hcong, hih, Except.map]

theorem clamp_eq (z : Int) :
    (if (if z < 1 then 1 else z) > 18 then 18
     else if z < 1 then 1 else z) = max 1 (min 18 z) := by
  split_ifs <;> omega

/-! ### Claim theorems -/

/-- C1: for every integer `z`, `set_zoom_scale(z)` succeeds and stores the
clamp of `z` to `[1, 18]` in the map's options under key `"zoom"`; in
particular `set_zoom_scale(0)` stores `1`, `set_zoom_scale(25)` stores
`18`, and any `z` already in `[1, 18]` is stored unchanged. -/
theorem set_zoom_scale_stores_clamp :
    (∀ (m : MapState) (z : Int),
      (set_zoom_scale m (.int z)).1 = .ok () ∧
      lookupOpt "zoom" (set_zoom_scale m (.int z)).2.options =
        some (.int (max 1 (min 18 z)))) ∧
    (∀ m : MapState,
      lookupOpt "zoom" (set_zoom_scale m (.int 0)).2.options =
        some (.int 1)) ∧
    (∀ m : MapState,
      lookupOpt "zoom" (set_zoom_scale m (.int 25)).2.options =
        some (.int 18)) ∧
    (∀ (m : MapState) (z : Int), 1 ≤ z → z ≤ 18 →
      lookupOpt "zoom" (set_zoom_scale m (.int z)).2.options =
        some (.int z)) := by
  have key : ∀ (m : MapState) (z : Int),
      (set_zoom_scale m (.int z)).1 = .ok () ∧
      lookupOpt "zoom" (set_zoom_scale m (.int z)).2.options =
        some (.int (max 1 (min 18 z))) := by
    intro m z
    refine ⟨rfl, ?_⟩
    show lookupOpt "zoom"
        (updateOpt "zoom"
          (.int (if (if z < 1 then 1 else z) > 18 then 18
                 else if z < 1 then 1 else z)) m.options) = _
    rw [lookupOpt_updateOpt_self, clamp_eq]
  refine ⟨key, fun m => ?_, fun m => ?_, fun m z h1 h2 => ?_⟩
  · have h := (key m 0).2
    have he : max 1 (min 18 (0 : Int)) = 1 := by decide
    rw [he] at h
    exact h
  · have h := (key m 25).2
    have he : max 1 (min 18 (25 : Int)) = 18 := by decide
    rw [he] at h
    exact h
  · have h := (key m z).2
    have he : max 1 (min 18 z) = z := by omega
    rw [he] at h
    exact h

/-- Witness for C1 at concrete inputs: zoom 5 lies in `[1, 18]` and is
stored unchanged on the demo map. -/
theorem set_zoom_scale_stores_clamp_inst :
    lookupOpt "zoom" (set_zoom_scale demoMap (.int 5)).2.options =
      some (.int 5) :=
  set_zoom_scale_stores_clamp.2.2.2 demoMap 5 (by decide) (by decide)

/-- C2: `set_zoom_scale` raises exactly when its argument is not an `int`,
and `set_center` raises exactly when at least one argument is not numeric;
in particular `set_zoom_scale(3.5)` and `set_center("a", 1)` raise. -/
theorem raises_iff_wrong_type :
    (∀ (m : MapState) (v : PyVal),
      raisesB (set_zoom_scale m v) = !v.isInt) ∧
    (∀ (m : MapState) (a b : PyVal),
      raisesB (set_center m a b) = !(a.isNumeric && b.isNumeric)) ∧
    raisesB (set_zoom_scale demoMap (.float (7 / 2 : Rat))) = true ∧
    raisesB (set_center demoMap (.str "a") (.int 1)) = true := by
  refine ⟨?_, ?_, rfl, rfl⟩
  · intro m v
    cases v <;> rfl
  · intro m a b
    cases a <;> cases b <;> rfl

/-- C5: for numeric arguments `set_center` succeeds and overwrites the
center with `(lat, lng)`, leaving options and overlays untouched. -/
theorem set_center_overwrites (m : MapState) (lat lng : PyVal)
    (h : (lat.isNumeric && lng.isNumeric) = true) :
    (set_center m lat lng).1 = .ok () ∧
    (set_center m lat lng).2.location = (lat, lng) ∧
    (set_center m lat lng).2.options = m.options ∧
    (set_center m lat lng).2.overlays = m.overlays := by
  simp [set_center, h]

/-- Witness for C5: `set_center(10, 1/2)` on the demo map. -/
theorem set_center_overwrites_inst :
    (set_center demoMap (.int 10) (.float (1 / 2 : Rat))).1 = .ok () ∧
    (set_center demoMap (.int 10) (.float (1 / 2 : Rat))).2.location =
      (.int 10, .float (1 / 2 : Rat)) ∧
    (set_center demoMap (.int 10) (.float (1 / 2 : Rat))).2.options =
      demoMap.options ∧
    (set_center demoMap (.int 10) (.float (1 / 2 : Rat))).2.overlays =
      demoMap.overlays :=
  set_center_overwrites demoMap (.int 10) (.float (1 / 2 : Rat)) (by decide)

/-- C9: when `set_center` or `set_zoom_scale` raises, the whole map state
is exactly what it was before the call. -/
theorem setters_atomic_on_failure (m : MapState) (a b v : PyVal) :
    (raisesB (set_center m a b) = true → (set_center m a b).2 = m) ∧
    (raisesB (set_zoom_scale m v) = true → (set_zoom_scale m v).2 = m) := by
  constructor
  · intro h
    by_cases hn : (a.isNumeric && b.isNumeric) = true
    · simp [raisesB, set_center, hn] at h
    · simp [set_center, hn]
  · intro h
    cases v with
    | int z => simp [raisesB, set_zoom_scale] at h
    | float q => rfl
    | bool b2 => rfl
    | str s => rfl

/-- Witness for C9: the failing calls `set_center("a", 1)` and
`set_zoom_scale(3.5)` leave the demo map intact. -/
theorem setters_atomic_on_failure_inst :
    (set_center demoMap (.str "a") (.int 1)).2 = demoMap ∧
    (set_zoom_scale demoMap (.float (7 / 2 : Rat))).2 = demoMap :=
  ⟨(setters_atomic_on_failure demoMap (.str "a") (.int 1)
      (.float (7 / 2 : Rat))).1 (by decide),
   (setters_atomic_on_failure demoMap (.str "a") (.int 1)
      (.float (7 / 2 : Rat))).2 (by decide)⟩

/-- C10: boolean arguments are rejected by both setters, because the
checks compare exact types and `type(True)` is `bool`, not `int` or
`float`. -/
theorem bool_args_rejected (m : MapState) (b : Bool) (v : PyVal) :
    raisesB (set_center m (.bool b) v) = true ∧
    raisesB (set_center m v (.bool b)) = true ∧
    raisesB (set_zoom_scale m (.bool b)) = true := by
  refine ⟨rfl, ?_, rfl⟩
  cases v <;> rfl

/-- C3: `clear()` yields a map with the center and zoom from immediately
before the call and no overlays.  The hypothesis that the options dict has
a `"zoom"` binding holds for every state the wrapper can reach: the
constructor installs the key and no operation removes it. -/
theorem clear_keeps_center_zoom (m : MapState) (z : PyVal)
    (h : lookupOpt "zoom" m.options = some z) :
    ∃ m2, clear m = .ok m2 ∧ m2.location = m.location ∧
      lookupOpt "zoom" m2.options = some z ∧ m2.overlays = [] := by
  refine ⟨FoliumMap.mkMap m.location z, ?_, rfl, ?_, rfl⟩
  · simp [clear, h]
  · simp [FoliumMap.mkMap, lookupOpt]

/-- Witness for C3: clearing the demo map after `make_marker` added three
markers restores an overlay-free map at the same center and zoom. -/
theorem clear_keeps_center_zoom_inst :
    ∃ m2, clear (make_marker demoMap demoDf).2 = .ok m2 ∧
      m2.location = (make_marker demoMap demoDf).2.location ∧
      lookupOpt "zoom" m2.options = some (.int 12) ∧ m2.overlays = [] :=
  clear_keeps_center_zoom (make_marker demoMap demoDf).2 (.int 12) (by decide)

/-- C4: on a location table with the default index labels `0, …, n-1` (the
labels a freshly built `pd.DataFrame` carries, matching the spec's location
records, which have no identity beyond their position), `make_marker`
succeeds, appends exactly one marker per row — at that row's `(lat, lng)`
with the popup built from the row's name — and leaves the center and
options reported by `get_map_info` unchanged. -/
theorem make_marker_adds_one_per_row (m : MapState) (df : LocFrame)
    (h : df.map Prod.fst = intRange df.length) :
    (make_marker m df).1 = .ok () ∧
    (make_marker m df).2.overlays =
      m.overlays ++ (df.map Prod.snd).map markerOf ∧
    ((make_marker m df).2.overlays).length =
      m.overlays.length + df.length ∧
    get_map_info (make_marker m df).2 = get_map_info m := by
  have hr : rowsAt df (intRange df.length) = .ok (df.map Prod.snd) := by
    have h0 := rowsAt_default df 0
    rw [show List.range' 0 df.length = List.range df.length by
      rw [List.range_eq_range']] at h0
    exact h0 h
  have hm := makeMarkerLoop_of_rowsAt_ok df (intRange df.length) m
    (df.map Prod.snd) hr
  unfold make_marker
  rw [hm]
  refine ⟨rfl, rfl, ?_, rfl⟩
  simp

/-- Witness for C4: the three-row demo table yields exactly three marker
overlays on the fresh demo map. -/
theorem make_marker_adds_one_per_row_inst :
    (make_marker demoMap demoDf).1 = .ok () ∧
    ((make_marker demoMap demoDf).2.overlays).length =
      demoMap.overlays.length + 3 ∧
    get_map_info (make_marker demoMap demoDf).2 = get_map_info demoMap :=
  ⟨(make_marker_adds_one_per_row demoMap demoDf (by decide)).1,
   (make_marker_adds_one_per_row demoMap demoDf (by decide)).2.2.1,
   (make_marker_adds_one_per_row demoMap demoDf (by decide)).2.2.2⟩

/-- C6: `make_bound(path)` propagates `FileNotFoundError` for a missing
file and `JSONDecodeError` for a malformed one, in both cases leaving the
map untouched; when the file parses it attaches exactly one styled region
overlay. -/
theorem make_bound_file_errors (fs : FileSys) (m : MapState) (p : String) :
    (fs p = .notFound → make_bound fs m p = (.error .fileNotFoundError, m)) ∧
    (fs p = .malformed → make_bound fs m p = (.error .jsonDecodeError, m)) ∧
    (∀ doc, fs p = .geojson doc →
      (make_bound fs m p).1 = .ok () ∧
      (make_bound fs m p).2.overlays = m.overlays ++
        [.geoJson doc "seoul"
          { fillColor := "yellow", color := "black", weight := 2
            fillOpacity := (15 / 100 : Rat) } ["name"]]) := by
  refine ⟨fun h => ?_, fun h => ?_, fun doc h => ?_⟩
  · simp [make_bound, h]
  · simp [make_bound, h]
  · constructor
    · simp [make_bound, h]
    · simp [make_bound, h, addOverlay]

/-- A concrete environment for the C6 witness: one well-formed GeoJSON
file, one malformed file, everything else missing. -/
def demoFs : FileSys := fun p =>
  if p = "seoul_municipalities_geo_simple.json" then .geojson "geo"
  else if p = "bad.json" then .malformed
  else .notFound

/-- Witness for C6: a missing path and a malformed path fail without
touching the demo map; the well-formed path succeeds. -/
theorem make_bound_file_errors_inst :
    make_bound demoFs demoMap "missing.json" =
      (.error .fileNotFoundError, demoMap) ∧
    make_bound demoFs demoMap "bad.json" =
      (.error .jsonDecodeError, demoMap) ∧
    (make_bound demoFs demoMap "seoul_municipalities_geo_simple.json").1 =
      .ok () :=
  ⟨(make_bound_file_errors demoFs demoMap "missing.json").1 (by decide),
   (make_bound_file_errors demoFs demoMap "bad.json").2.1 (by decide),
   ((make_bound_file_errors demoFs demoMap
      "seoul_municipalities_geo_simple.json").2.2 "geo" (by decide)).1⟩

/-- C7: on a location table with default index labels, `make_circle` draws
one circle per row, using the caller's value for each supplied keyword and
the fixed default (radius 5000, weight 3, color "brown", fill True,
fill_opacity 0.3, fill_color "coral") for each omitted one. -/
theorem make_circle_uses_supplied_or_default (m : MapState) (df : LocFrame)
    (kw : CircleKwargs) (h : df.map Prod.fst = intRange df.length) :
    (make_circle m df kw).1 = .ok () ∧
    (make_circle m df kw).2.overlays = m.overlays ++
      List.map
        (circleOf (kw.radius.getD (.int 5000)) (kw.weight.getD (.int 3))
          (kw.color.getD (.str "brown")) (kw.fill.getD (.bool true))
          (kw.fill_color.getD (.str "coral"))
          (kw.fill_opacity.getD (.float (3 / 10 : Rat))))
        (df.map Prod.snd) := by
  have hr : rowsAt df (intRange df.length) = .ok (df.map Prod.snd) := by
    have h0 := rowsAt_default df 0
    rw [show List.range' 0 df.length = List.range df.length by
      rw [List.range_eq_range']] at h0
    exact h0 h
  have hm := makeCircleLoop_of_rowsAt_ok df (kw.radius.getD (.int 5000))
    (kw.weight.getD (.int 3)) (kw.color.getD (.str "brown"))
    (kw.fill.getD (.bool true)) (kw.fill_opacity.getD (.float (3 / 10 : Rat)))
    (kw.fill_color.getD (.str "coral")) (intRange df.length) m
    (df.map Prod.snd) hr
  have hdef : make_circle m df kw = makeCircleLoop m df
      (kw.radius.getD (.int 5000)) (kw.weight.getD (.int 3))
      (kw.color.getD (.str "brown")) (kw.fill.getD (.bool true))
      (kw.fill_opacity.getD (.float (3 / 10 : Rat)))
      (kw.fill_color.getD (.str "coral")) (intRange df.length) := rfl
  rw [hdef, hm]
  exact ⟨rfl, rfl⟩

/-- The C7 witness's keyword arguments: radius and color supplied, the
other four omitted. -/
def demoKw : CircleKwargs :=
  { radius := some (.int 300), color := some (.str "blue") }

/-- Witness for C7: with radius 300 and color "blue" supplied, each circle
on the demo table carries those two values and the four defaults. -/
theorem make_circle_uses_supplied_or_default_inst :
    (make_circle demoMap demoDf demoKw).1 = .ok () ∧
    (make_circle demoMap demoDf demoKw).2.overlays = demoMap.overlays ++
      List.map
        (circleOf (.int 300) (.int 3) (.str "blue") (.bool true)
          (.str "coral") (.float (3 / 10 : Rat)))
        (demoDf.map Prod.snd) :=
  make_circle_uses_supplied_or_default demoMap demoDf demoKw (by decide)

/-- C8 counterexample: a two-row table whose index is `[1, 0]` — not the
default range `[0, 1]` — on which `make_marker` nevertheless succeeds, so
"succeed only when the index is exactly the default range" is false. -/
theorem make_marker_permuted_index_ok :
    (make_marker demoMap dfPermuted).1 = .ok () ∧
    ¬dfPermuted.map Prod.fst = intRange dfPermuted.length := by
  exact ⟨rfl, by decide⟩

/-- C8 (amended): the loops of `make_marker` and `make_circle` look rows up
by index label `i` for `i` in `0..n-1`, so they succeed exactly when each
of those labels selects exactly one row — i.e. the labels are a permutation
of `0..n-1`; otherwise the lookup of the first missing (or duplicated)
label raises partway through the loop. -/
theorem marker_circle_label_lookup (m : MapState) (df : LocFrame)
    (kw : CircleKwargs) :
    ((make_marker m df).1 = .ok () ↔
      ∀ i ∈ intRange df.length,
        (df.filter (fun p => p.1 = i)).length = 1) ∧
    ((make_circle m df kw).1 = .ok () ↔
      ∀ i ∈ intRange df.length,
        (df.filter (fun p => p.1 = i)).length = 1) := by
  constructor
  · rw [show make_marker m df = makeMarkerLoop m df (intRange df.length)
      from rfl, makeMarkerLoop_ok_iff]
    simp only [rowFound_iff]
  · rw [show make_circle m df kw = makeCircleLoop m df
      (kw.radius.getD (.int 5000)) (kw.weight.getD (.int 3))
      (kw.color.getD (.str "brown")) (kw.fill.getD (.bool true))
      (kw.fill_opacity.getD (.float (3 / 10 : Rat)))
      (kw.fill_color.getD (.str "coral")) (intRange df.length) from rfl,
      makeCircleLoop_ok_iff]
    simp only [rowFound_iff]

/-- Witness for C8 (amended): on the demo table every label in `0..2`
selects exactly one row, and `make_marker` indeed succeeds. -/
theorem marker_circle_label_lookup_inst :
    (make_marker demoMap demoDf).1 = .ok () :=
  (marker_circle_label_lookup demoMap demoDf demoKw).1.mpr (by decide)
